import Mathlib

/-!
Verification of the diagnosis demo (`src/main.py`): a single-file app that
sends user "pain points" and an optional PDF's text to a remote model,
parses the JSON reply, caches it in session state, and renders metrics and
a filtered list of mock experts.

The embedding below models, from the source:
  * Python JSON values (`json.loads` output) as `JVal`;
  * the session-state mutation of the `process_btn` handler as a function
    on an explicit `SessionState`;
  * dashboard field accesses (`data[...]`, `len`, `sum`, `/`) as
    `Except String _` computations where an `error` models the Python
    exception that the unguarded code would raise;
  * the expert filtering (`str.contains(case=False)` / `isin` plus the
    random-sample fallback) with random sampling passed as an argument;
  * the mock-database generator with the pseudo-random streams
    (`random.choice`, `random.uniform`, `random.randint`, faker) passed
    as arguments.
Python `round(x, 1)` is modelled with Mathlib's `round` (half rounds up,
where CPython rounds half to even); the two agree away from exact halves
and both stay inside a closed range, which is all the claims use.
-/

/-- A JSON value as returned by Python `json.loads`. -/
inductive JVal where
  | str (s : String)
  | num (q : ℚ)
  | boolean (b : Bool)
  | null
  | arr (elems : List JVal)
  | obj (fields : List (String × JVal))

/-- First-match association lookup; models `d[k]` / `d.get(k)` on a Python
dict whose keys are distinct (as `json.loads` produces). -/
def lookupFields : List (String × JVal) → String → Option JVal
  | [], _ => none
  | (k, v) :: rest, key => if k = key then some v else lookupFields rest key

/-- `data[k]` succeeds only on objects that carry the key. -/
def JVal.lookup : JVal → String → Option JVal
  | .obj fields, key => lookupFields fields key
  | _, _ => none

/-- Python truthiness of a JSON value (`if diagnosis_result:`). -/
def JVal.truthy : JVal → Bool
  | .str s => !s.isEmpty
  | .num q => q != 0
  | .boolean b => b
  | .null => false
  | .arr elems => !elems.isEmpty
  | .obj fields => !fields.isEmpty

/-- Python `len` on a JSON value; `error` models the `TypeError` raised on
values without a length. -/
def pyLen : JVal → Except String Nat
  | .str s => .ok s.length
  | .arr elems => .ok elems.length
  | .obj fields => .ok fields.length
  | _ => .error "TypeError: object has no len"

/-- Python iteration over a JSON value: lists yield their elements,
strings their characters, dicts their keys; other values raise. -/
def pyIter : JVal → Except String (List JVal)
  | .arr elems => .ok elems
  | .str s => .ok (s.data.map fun c => JVal.str (String.mk [c]))
  | .obj fields => .ok (fields.map fun kv => JVal.str kv.1)
  | _ => .error "TypeError: not iterable"

def keyErr (k : String) : String := "KeyError: " ++ k

/-- Dashboard metric `len(data['identified_gaps'])` (main.py line 148). -/
def brechasIdentificadas (data : JVal) : Except String Nat :=
  match data.lookup "identified_gaps" with
  | none => .error (keyErr "identified_gaps")
  | some v => pyLen v

/-- Dashboard metric `len(data['recommended_plan'])` (main.py line 149). -/
def modulosSugeridos (data : JVal) : Except String Nat :=
  match data.lookup "recommended_plan" with
  | none => .error (keyErr "recommended_plan")
  | some v => pyLen v

/-- `d['severity']` inside the generator expression of line 150: on a dict
it is a key lookup, on any other value it raises. -/
def severityOf (d : JVal) : Except String ℚ :=
  match d with
  | .obj fields =>
    match lookupFields fields "severity" with
    | some (.num q) => .ok q
    | some _ => .error "TypeError: unsupported operand"
    | none => .error (keyErr "severity")
  | _ => .error "TypeError: value is not subscriptable"

/-- `sum(d['severity'] for d in gaps)`, left to right. -/
def sumSeverities : List JVal → Except String ℚ
  | [] => .ok 0
  | d :: rest =>
    match severityOf d with
    | .error e => .error e
    | .ok q =>
      match sumSeverities rest with
      | .error e => .error e
      | .ok s => .ok (q + s)

/-- Python `round(x, 1)` (see the header comment on the half case). -/
def roundTo1 (q : ℚ) : ℚ := (round (q * 10) : ℤ) / 10

/-- Dashboard metric m3 (main.py line 150):
`round(sum(d['severity'] for d in data['identified_gaps'])/len(data['identified_gaps']), 1)`.
The sum is evaluated first, then `len`, then the division — which raises
`ZeroDivisionError` when the gap list is empty. -/
def severidadPromedio (data : JVal) : Except String ℚ :=
  match data.lookup "identified_gaps" with
  | none => .error (keyErr "identified_gaps")
  | some v =>
    match pyIter v with
    | .error e => .error e
    | .ok elems =>
      match sumSeverities elems with
      | .error e => .error e
      | .ok s =>
        match pyLen v with
        | .error e => .error e
        | .ok n =>
          if n = 0 then .error "ZeroDivisionError: division by zero"
          else .ok (roundTo1 (s / (n : ℚ)))

/-- `data['diagnosis_summary']` (main.py line 152). -/
def diagnosticoResumen (data : JVal) : Except String JVal :=
  match data.lookup "diagnosis_summary" with
  | none => .error (keyErr "diagnosis_summary")
  | some v => .ok v

/-- `data.get('recommended_specialties', [])` (main.py line 179): a guarded
lookup with an explicit empty-list default. -/
def recSpecialties (data : JVal) : Except String JVal :=
  match data with
  | .obj fields => .ok ((lookupFields fields "recommended_specialties").getD (JVal.arr []))
  | _ => .error "AttributeError: value has no attribute get"

/-- The two keys of `st.session_state` the app uses. -/
structure SessionState where
  diagnosis : Option JVal
  processed : Bool

/-- Observable outcome of one click of the primary button: the new session
state, the `st.warning` / `st.error` messages shown, and whether the remote
API was invoked. -/
structure RunOut where
  state : SessionState
  warnings : List String
  errors : List String
  calledApi : Bool

def errPrefixGroq : String := "Error al conectar con Groq o procesar JSON: "

/-- `get_ai_diagnosis` (main.py lines 51-92), parameterized by the combined
outcome of the remote call plus `json.loads`: an exception (with message)
or a parsed JSON value. On an exception it shows `st.error` with the cause
and returns `None`; on success it returns the parsed value unvalidated —
no schema check of any kind is performed. -/
def get_ai_diagnosis (callOutcome : Except String JVal) : Option JVal × List String :=
  match callOutcome with
  | .error e => (none, [errPrefixGroq ++ e])
  | .ok v => (some v, [])

def warnApiKey : String := "⚠️ Por favor ingresa tu API Key de Groq en la barra lateral."
def warnPain : String := "⚠️ Por favor describe los dolores o necesidades."

/-- The `if process_btn:` handler (main.py lines 121-137). Python's
`not groq_api_key` / `not pain_points` on strings test for emptiness; the
cache is updated only when the returned value is truthy
(`if diagnosis_result:`). -/
def process_btn (groq_api_key pain_points : String) (callOutcome : Except String JVal)
    (s : SessionState) : RunOut :=
  if groq_api_key = "" then ⟨s, [warnApiKey], [], false⟩
  else if pain_points = "" then ⟨s, [warnPain], [], false⟩
  else
    match get_ai_diagnosis callOutcome with
    | (none, errs) => ⟨s, [], errs, true⟩
    | (some v, errs) =>
      if v.truthy then ⟨⟨some v, true⟩, [], errs, true⟩
      else ⟨s, [], errs, true⟩

/-- `extract_text_from_pdf` (main.py lines 41-49): a PDF is modelled as its
list of page texts; with no file it returns the EMPTY string, else the
concatenation of the pages' texts. -/
def extract_text_from_pdf (uploaded_file : Option (List String)) : String :=
  match uploaded_file with
  | none => ""
  | some pages => pages.foldl (fun acc p => acc ++ p) ""

def noPdfSentinel : String := "No se proporcionó PDF, basar solo en dolores."

/-- Line 129: `extract_text_from_pdf(uploaded_file) if uploaded_file else
"No se proporcionó PDF, basar solo en dolores."` — the handler, not the
extractor, substitutes the sentinel. -/
def pdfTextFor (uploaded_file : Option (List String)) : String :=
  match uploaded_file with
  | some pages => extract_text_from_pdf (some pages)
  | none => noPdfSentinel

/-- Python slice `s[:n]`: the first `n` characters. -/
def pyTake (n : Nat) (s : String) : String := String.mk (s.data.take n)

def ucHeader : String := "\n    DOLORES/NECESIDADES: "
def ucMiddle : String := "\n    \n    CONTEXTO ESTRATÉGICO (PDF): "
def ucTail : String := " (texto truncado para eficiencia)\n    "

/-- The `user_content` f-string of `get_ai_diagnosis` (main.py lines
73-77): the needs text is interpolated whole, the strategy text as
`strategy_text[:2000]`. -/
def user_content (pain_points strategy_text : String) : String :=
  ucHeader ++ pain_points ++ ucMiddle ++ pyTake 2000 strategy_text ++ ucTail

/-- One row of the mock experts table. -/
structure Expert where
  id : String
  name : String
  specialty : String
  rating : ℚ
  hourly_rate : ℤ
  email : String
deriving DecidableEq, Repr

def specialties : List String :=
  ["Liderazgo", "Python & Data", "Soft Skills", "Agile", "Ventas", "Ciberseguridad"]

/-- `generate_mock_database` (main.py lines 20-35), with the random /
faker draws passed in as streams: `specIdx i` is the index drawn by
`random.choice(specialties)`, `ratingAt i` the float from
`random.uniform(3.5, 5.0)` (then rounded to one decimal), `rateAt i` the
integer from `random.randint(50, 200)`. -/
def generate_mock_database (nameAt emailAt : Nat → String) (specIdx : Nat → Nat)
    (ratingAt : Nat → ℚ) (rateAt : Nat → ℤ) : List Expert :=
  (List.range 15).map fun i =>
    { id := "EXP-" ++ toString (i + 100)
      name := nameAt i
      specialty := specialties.getD (specIdx i) ""
      rating := roundTo1 (ratingAt i)
      hourly_rate := rateAt i
      email := emailAt i }

/-- Is `pat` a prefix of the second list? -/
def prefCheck : List Char → List Char → Bool
  | [], _ => true
  | _ :: _, [] => false
  | p :: ps, c :: cs => p == c && prefCheck ps cs

/-- Is `pat` a contiguous sublist of the second list? -/
def subCheck (pat : List Char) : List Char → Bool
  | [] => pat.isEmpty
  | c :: rest => prefCheck pat (c :: rest) || subCheck pat rest

def lowerChars (s : String) : List Char := s.data.map Char.toLower

/-- The matching the SPEC ascribes to line 186: case-insensitive literal
substring containment. The source-faithful semantics is `strContainsRegex`
below — pandas `str.contains` reads its pattern as a regular expression —
and the two are proved to agree exactly on metacharacter-free patterns. -/
def strContains (hay pat : String) : Bool := subCheck (lowerChars pat) (lowerChars hay)

/-- The spec's reading of lines 184-189 (literal substring matching);
the source-faithful branch is `filterExpertsBySpecialtyRegex` below.
`sample3` stands for the random draw `experts_db.sample(3)`. -/
def filterExpertsBySpecialty (experts_db : List Expert) (selected : String)
    (sample3 : List Expert) : List Expert :=
  let filtered := experts_db.filter fun e => strContains e.specialty selected
  if filtered.isEmpty then sample3 else filtered

/-- A single-character regex atom: a literal character or `.`. -/
inductive RElem where
  | lit (c : Char)
  | dot

/-- An atom with its quantifier, as Python `re` parses `a`, `a*`, `a+`,
`a?`. -/
inductive RPiece where
  | once (e : RElem)
  | star (e : RElem)
  | plus (e : RElem)
  | opt (e : RElem)

/-- Does the atom match one character?  Python `.` matches any character
except a newline. -/
def matchElem : RElem → Char → Bool
  | .lit c, x => c == x
  | .dot, x => x != '\n'

/-- Does the piece sequence match some prefix of `cs`?  Greedy versus lazy
order is irrelevant for this Boolean: all alternatives are joined by
`||`. -/
def matchPieces (ps : List RPiece) (cs : List Char) : Bool :=
  match ps, cs with
  | [], _ => true
  | .once _ :: _, [] => false
  | .once e :: ps, c :: rest => matchElem e c && matchPieces ps rest
  | .opt _ :: ps, [] => matchPieces ps []
  | .opt e :: ps, c :: rest =>
      matchPieces ps (c :: rest) || (matchElem e c && matchPieces ps rest)
  | .plus _ :: _, [] => false
  | .plus e :: ps, c :: rest => matchElem e c && matchPieces (.star e :: ps) rest
  | .star _ :: ps, [] => matchPieces ps []
  | .star e :: ps, c :: rest =>
      matchPieces ps (c :: rest) || (matchElem e c && matchPieces (.star e :: ps) rest)
termination_by (cs.length, ps.length)

/-- Python `re.search`: does the pattern match starting at some position? -/
def searchFrom (ps : List RPiece) : List Char → Bool
  | [] => matchPieces ps []
  | c :: rest => matchPieces ps (c :: rest) || searchFrom ps rest

/-- The characters Python `re` treats specially. -/
def isRegexMeta (c : Char) : Bool :=
  c == '.' || c == '^' || c == '$' || c == '*' || c == '+' || c == '?' ||
  c == '(' || c == ')' || c == '[' || c == ']' || c == '\\' || c == '|' ||
  c == '\x7b' || c == '\x7d'

/-- One pass of Python `re` parsing over the modelled fragment: literal
characters, `.`, and a single postfix quantifier on the preceding
character.  `acc` holds the pieces parsed so far, most recent first.
Everything else — a quantifier with nothing before it or after another
quantifier (`re.error` such as for `C++`, or lazy/possessive forms), and
the remaining metacharacters (classes, groups, anchors, escapes,
alternation, counted repeats) — yields an explicit `error`: the model
covers no behaviour there, and no theorem below applies it there. -/
def parseLoop : List RPiece → List Char → Except String (List RPiece)
  | acc, [] => .ok acc.reverse
  | acc, c :: rest =>
    if c == '*' || c == '+' || c == '?' then
      match acc with
      | .once e :: accTail =>
        parseLoop
          ((if c == '*' then RPiece.star e
            else if c == '+' then RPiece.plus e else RPiece.opt e) :: accTail) rest
      | _ :: _ => .error "re.error (multiple repeat) or quantifier form outside the modelled fragment"
      | [] => .error "re.error: nothing to repeat"
    else if c == '.' then
      parseLoop (.once .dot :: acc) rest
    else if isRegexMeta c then
      .error "regex construct outside the modelled fragment"
    else
      parseLoop (.once (.lit c) :: acc) rest

/-- `re.compile` over the modelled fragment. -/
def parseRegex (pat : List Char) : Except String (List RPiece) := parseLoop [] pat

/-- Source-faithful `series.str.contains(pat, case=False, na=False)`
(main.py line 186) on one cell: the pattern is a case-insensitive regular
expression (pandas default `regex=True`); an `error` outcome models
`re.error` or a pattern outside the modelled fragment. -/
def strContainsRegex (hay pat : String) : Except String Bool :=
  match parseRegex (lowerChars pat) with
  | .error e => .error e
  | .ok ps => .ok (searchFrom ps (lowerChars hay))

/-- Source-faithful lines 184-189: the `selected_filter != "Todos"`
branch with pandas regex semantics.  The pattern is compiled once; a
compilation failure aborts the whole filter (the app would crash). -/
def filterExpertsBySpecialtyRegex (experts_db : List Expert) (selected : String)
    (sample3 : List Expert) : Except String (List Expert) :=
  match parseRegex (lowerChars selected) with
  | .error e => .error e
  | .ok ps =>
    let filtered := experts_db.filter fun e => searchFrom ps (lowerChars e.specialty)
    .ok (if filtered.isEmpty then sample3 else filtered)

/-- Lines 190-194: the `"Todos"` branch, `specialty.isin(rec_specialties)`
(exact, case-sensitive membership). `sample5` stands for
`experts_db.sample(5)`. -/
def filterExpertsTodos (experts_db : List Expert) (rec_specialties : List String)
    (sample5 : List Expert) : List Expert :=
  let filtered := experts_db.filter fun e => rec_specialties.contains e.specialty
  if filtered.isEmpty then sample5 else filtered

/-- The gap list of a concrete schema-valid reply. -/
def sampleGaps : List JVal :=
  [JVal.obj [("gap", JVal.str "Liderazgo"), ("severity", JVal.num 7),
             ("category", JVal.str "Blanda")]]

/-- The plan list of a concrete schema-valid reply. -/
def samplePlan : List JVal :=
  [JVal.obj [("module", JVal.str "Liderazgo 101"), ("duration", JVal.str "4h"),
             ("objective", JVal.str "Dirigir equipos")]]

/-- The fields of a concrete schema-valid reply. -/
def sampleFields : List (String × JVal) :=
  [("diagnosis_summary", JVal.str "Falta liderazgo en mandos medios"),
   ("identified_gaps", JVal.arr sampleGaps),
   ("recommended_plan", JVal.arr samplePlan),
   ("recommended_specialties", JVal.arr [JVal.str "Liderazgo"])]

/-- A schema-valid diagnosis reply with one gap and one plan module. -/
def sampleDiagnosis : JVal := JVal.obj sampleFields

/-- A small concrete experts table used to instantiate the filter claims. -/
def demoExperts : List Expert :=
  [⟨"EXP-100", "Ana Gómez", "Liderazgo", 4, 80, "ana@example.com"⟩,
   ⟨"EXP-101", "Luis Ruiz", "Agile", 5, 120, "luis@example.com"⟩,
   ⟨"EXP-102", "Eva Díaz", "Ventas", 4, 60, "eva@example.com"⟩,
   ⟨"EXP-103", "Sara Peña", "Python & Data", 5, 150, "sara@example.com"⟩,
   ⟨"EXP-104", "Iván Lago", "Ciberseguridad", 4, 90, "ivan@example.com"⟩]

/-- A schema-valid diagnosis reply whose gap list is empty. -/
def emptyGapsDiagnosis : JVal := JVal.obj
  [("diagnosis_summary", JVal.str "Sin brechas"),
   ("identified_gaps", JVal.arr []),
   ("recommended_plan", JVal.arr []),
   ("recommended_specialties", JVal.arr [])]

/-- Valid JSON that does not match the diagnosis schema at all. -/
def mismatchedReply : JVal := JVal.obj [("foo", JVal.num 1)]

/-- A parsed reply carrying only the summary field. -/
def summaryOnlyReply : JVal := JVal.obj [("diagnosis_summary", JVal.str "resumen")]

/-- The rounded value of a rating drawn from the closed interval
`[3.5, 5]` stays inside that interval. -/
theorem roundTo1_rating_bounds (x : ℚ) (h1 : (7 : ℚ) / 2 ≤ x) (h2 : x ≤ 5) :
    (7 : ℚ) / 2 ≤ roundTo1 x ∧ roundTo1 x ≤ 5 := by
  have hl : (35 : ℤ) ≤ round (x * 10) := by
    rw [round_eq, Int.le_floor]
    push_cast
    linarith
  have hu : round (x * 10) ≤ 50 := by
    have : round (x * 10) < 51 := by
      rw [round_eq, Int.floor_lt]
      push_cast
      linarith
    omega
  have hlq : (35 : ℚ) ≤ (round (x * 10) : ℚ) := by exact_mod_cast hl
  have huq : ((round (x * 10) : ℤ) : ℚ) ≤ 50 := by exact_mod_cast hu
  unfold roundTo1
  constructor <;> linarith

/-- C1: on a cached diagnosis whose `identified_gaps` list is empty, the
average-severity metric of main.py line 150 raises `ZeroDivisionError`
(modelled as the `error` outcome) — it does not report a "not applicable"
value, so the dashboard crashes, contrary to the claim. -/
theorem C1_empty_gaps_division_error :
    severidadPromedio emptyGapsDiagnosis =
      Except.error "ZeroDivisionError: division by zero" := rfl

/-- C6 counterexample: `extract_text_from_pdf` itself returns the EMPTY
string when no document is supplied, which is not the sentinel — the claim
as stated about the Document Text Extractor is false. -/
theorem C6_counterexample :
    extract_text_from_pdf none = "" ∧ noPdfSentinel ≠ "" := by
  exact ⟨rfl, by decide⟩

/-- C6 (amended): the extractor returns the empty string for a missing
document; it is the button handler (main.py line 129) that substitutes the
fixed sentinel, so the text that reaches the diagnosis request is the
sentinel, not the empty string. -/
theorem C6_handler_substitutes_sentinel :
    pdfTextFor none = noPdfSentinel
    ∧ extract_text_from_pdf none = ""
    ∧ noPdfSentinel ≠ "" := by
  exact ⟨rfl, rfl, by decide⟩

/-- C7 counterexample: a successfully parsed reply missing the
`identified_gaps` and `recommended_plan` fields makes the dashboard's
unguarded `data[...]` lookups fail with `KeyError` — absent fields are not
handled by an explicit default or explicit rejection. -/
theorem C7_counterexample :
    brechasIdentificadas summaryOnlyReply = Except.error (keyErr "identified_gaps")
    ∧ modulosSugeridos summaryOnlyReply = Except.error (keyErr "recommended_plan") := by
  exact ⟨rfl, rfl⟩

/-- C7 (amended): only the recommended-specialty list is read defensively
(`data.get('recommended_specialties', [])`, with an explicit empty-list
default); the summary, gap-list and plan-list fields are read with
unguarded `data[...]` lookups that fail with `KeyError` when absent. -/
theorem C7_only_specialties_defaulted (fields : List (String × JVal))
    (h1 : lookupFields fields "recommended_specialties" = none)
    (h2 : lookupFields fields "identified_gaps" = none)
    (h3 : lookupFields fields "recommended_plan" = none)
    (h4 : lookupFields fields "diagnosis_summary" = none) :
    recSpecialties (JVal.obj fields) = Except.ok (JVal.arr [])
    ∧ brechasIdentificadas (JVal.obj fields) = Except.error (keyErr "identified_gaps")
    ∧ modulosSugeridos (JVal.obj fields) = Except.error (keyErr "recommended_plan")
    ∧ diagnosticoResumen (JVal.obj fields) = Except.error (keyErr "diagnosis_summary") := by
  refine ⟨?_, ?_, ?_, ?_⟩
  · simp [recSpecialties, h1]
  · simp [brechasIdentificadas, JVal.lookup, h2]
  · simp [modulosSugeridos, JVal.lookup, h3]
  · simp [diagnosticoResumen, JVal.lookup, h4]

/-- Witness for C7 at a concrete reply that has none of the four fields. -/
theorem C7_witness :
    lookupFields [("otro", JVal.str "v")] "recommended_specialties" = none
    ∧ lookupFields [("otro", JVal.str "v")] "identified_gaps" = none
    ∧ lookupFields [("otro", JVal.str "v")] "recommended_plan" = none
    ∧ lookupFields [("otro", JVal.str "v")] "diagnosis_summary" = none
    ∧ (recSpecialties (JVal.obj [("otro", JVal.str "v")]) = Except.ok (JVal.arr [])
       ∧ brechasIdentificadas (JVal.obj [("otro", JVal.str "v")])
           = Except.error (keyErr "identified_gaps")
       ∧ modulosSugeridos (JVal.obj [("otro", JVal.str "v")])
           = Except.error (keyErr "recommended_plan")
       ∧ diagnosticoResumen (JVal.obj [("otro", JVal.str "v")])
           = Except.error (keyErr "diagnosis_summary")) :=
  ⟨rfl, rfl, rfl, rfl, C7_only_specialties_defaulted [("otro", JVal.str "v")] rfl rfl rfl rfl⟩

/-- C8: the request body interpolates the needs text whole and the strategy
text cut to its first 2000 characters, so the document part of the payload
is bounded by 2000 characters whatever the input size, and a short document
is included untruncated. -/
theorem C8_document_truncation (pain_points strategy_text : String) :
    user_content pain_points strategy_text =
      ucHeader ++ pain_points ++ ucMiddle ++ pyTake 2000 strategy_text ++ ucTail
    ∧ (pyTake 2000 strategy_text).length = min 2000 strategy_text.length
    ∧ (pyTake 2000 strategy_text).length ≤ 2000
    ∧ (strategy_text.length ≤ 2000 → pyTake 2000 strategy_text = strategy_text) := by
  refine ⟨rfl, ?_, ?_, ?_⟩
  · show (strategy_text.data.take 2000).length = min 2000 strategy_text.data.length
    exact List.length_take 2000 strategy_text.data
  · show (strategy_text.data.take 2000).length ≤ 2000
    rw [List.length_take]
    exact min_le_left _ _
  · intro hle
    show String.mk (strategy_text.data.take 2000) = strategy_text
    rw [List.take_of_length_le hle]

/-- Witness for C8 at a concrete short pair of texts. -/
theorem C8_witness :
    user_content "dolores" "estrategia" =
      ucHeader ++ "dolores" ++ ucMiddle ++ pyTake 2000 "estrategia" ++ ucTail
    ∧ (pyTake 2000 "estrategia").length = min 2000 ("estrategia" : String).length
    ∧ (pyTake 2000 "estrategia").length ≤ 2000
    ∧ (("estrategia" : String).length ≤ 2000 → pyTake 2000 "estrategia" = "estrategia") :=
  C8_document_truncation "dolores" "estrategia"

/-- C9: with no credential or with empty needs text, the handler shows a
warning, attempts no remote request, and leaves the session state (hence
the cached result) unchanged. -/
theorem C9_guards_block_request (groq_api_key pain_points : String)
    (callOutcome : Except String JVal) (s : SessionState)
    (h : groq_api_key = "" ∨ pain_points = "") :
    (process_btn groq_api_key pain_points callOutcome s).state = s
    ∧ (process_btn groq_api_key pain_points callOutcome s).calledApi = false
    ∧ (process_btn groq_api_key pain_points callOutcome s).warnings ≠ []
    ∧ (process_btn groq_api_key pain_points callOutcome s).errors = [] := by
  rcases h with h | h
  · subst h
    simp [process_btn]
  · subst h
    by_cases hk : groq_api_key = "" <;> simp [process_btn, hk]

/-- Witness for C9: empty credential, non-empty needs text. -/
theorem C9_witness :
    (("" : String) = "" ∨ ("dolores" : String) = "")
    ∧ ((process_btn "" "dolores" (Except.ok sampleDiagnosis) ⟨none, false⟩).state
          = ⟨none, false⟩
       ∧ (process_btn "" "dolores" (Except.ok sampleDiagnosis) ⟨none, false⟩).calledApi = false
       ∧ (process_btn "" "dolores" (Except.ok sampleDiagnosis) ⟨none, false⟩).warnings ≠ []
       ∧ (process_btn "" "dolores" (Except.ok sampleDiagnosis) ⟨none, false⟩).errors = []) :=
  ⟨Or.inl rfl,
   C9_guards_block_request "" "dolores" (Except.ok sampleDiagnosis) ⟨none, false⟩ (Or.inl rfl)⟩

/-- C2 counterexample: a valid-JSON reply that mismatches the schema is a
failed diagnosis by the claim, yet the handler caches it — replacing the
previously cached result — and reports no error (the crash only surfaces
later when the dashboard reads the missing fields). -/
theorem C2_counterexample :
    (process_btn "gsk-demo" "dolores" (Except.ok mismatchedReply)
        ⟨some sampleDiagnosis, true⟩).state.diagnosis ≠ some sampleDiagnosis
    ∧ (process_btn "gsk-demo" "dolores" (Except.ok mismatchedReply)
        ⟨some sampleDiagnosis, true⟩).errors = [] := by
  constructor
  · show some mismatchedReply ≠ some sampleDiagnosis
    simp [mismatchedReply, sampleDiagnosis, sampleFields]
  · rfl

/-- C2 (amended): for the failures `get_ai_diagnosis` actually catches —
a raising remote call or a non-JSON reply — an error carrying the
exception's message is shown and the session state is left unchanged; a
JSON-valid reply that mismatches the schema is not detected as a failure
and, when truthy, replaces the cached result without any error. -/
theorem C2_caught_failure_preserves_cache (groq_api_key pain_points e : String)
    (s : SessionState) (hk : groq_api_key ≠ "") (hp : pain_points ≠ "") :
    (process_btn groq_api_key pain_points (Except.error e) s).state = s
    ∧ (process_btn groq_api_key pain_points (Except.error e) s).errors
        = [errPrefixGroq ++ e]
    ∧ (process_btn groq_api_key pain_points (Except.error e) s).warnings = [] := by
  simp [process_btn, get_ai_diagnosis, hk, hp]

/-- Witness for C2 at a concrete timeout failure. -/
theorem C2_witness :
    ("gsk-demo" : String) ≠ "" ∧ ("dolores" : String) ≠ ""
    ∧ ((process_btn "gsk-demo" "dolores" (Except.error "timeout")
          ⟨some sampleDiagnosis, true⟩).state = ⟨some sampleDiagnosis, true⟩
       ∧ (process_btn "gsk-demo" "dolores" (Except.error "timeout")
          ⟨some sampleDiagnosis, true⟩).errors = [errPrefixGroq ++ "timeout"]
       ∧ (process_btn "gsk-demo" "dolores" (Except.error "timeout")
          ⟨some sampleDiagnosis, true⟩).warnings = []) :=
  ⟨by decide, by decide,
   C2_caught_failure_preserves_cache "gsk-demo" "dolores" "timeout"
     ⟨some sampleDiagnosis, true⟩ (by decide) (by decide)⟩

/-- C3: with a non-empty credential and needs text, a successful remote
call whose reply is a JSON object carrying the schema's list fields is
cached as-is, and the dashboard's gap and plan-module count metrics equal
the lengths of the reply's `identified_gaps` and `recommended_plan`
lists. -/
theorem C3_valid_reply_counts (groq_api_key pain_points : String)
    (hk : groq_api_key ≠ "") (hp : pain_points ≠ "") (s : SessionState)
    (fields : List (String × JVal)) (gaps plan : List JVal)
    (hg : lookupFields fields "identified_gaps" = some (JVal.arr gaps))
    (hpl : lookupFields fields "recommended_plan" = some (JVal.arr plan)) :
    (process_btn groq_api_key pain_points (Except.ok (JVal.obj fields)) s).state
      = ⟨some (JVal.obj fields), true⟩
    ∧ brechasIdentificadas (JVal.obj fields) = Except.ok gaps.length
    ∧ modulosSugeridos (JVal.obj fields) = Except.ok plan.length := by
  have hne : fields ≠ [] := by
    intro hnil
    rw [hnil] at hg
    simp [lookupFields] at hg
  refine ⟨?_, ?_, ?_⟩
  · have ht : (JVal.obj fields).truthy = true := by
      cases fields with
      | nil => exact absurd rfl hne
      | cons a l => rfl
    simp [process_btn, get_ai_diagnosis, hk, hp, ht]
  · simp [brechasIdentificadas, JVal.lookup, hg, pyLen]
  · simp [modulosSugeridos, JVal.lookup, hpl, pyLen]

/-- Witness for C3 at the concrete schema-valid reply. -/
theorem C3_witness :
    ("gsk-demo" : String) ≠ "" ∧ ("dolores" : String) ≠ ""
    ∧ lookupFields sampleFields "identified_gaps" = some (JVal.arr sampleGaps)
    ∧ lookupFields sampleFields "recommended_plan" = some (JVal.arr samplePlan)
    ∧ ((process_btn "gsk-demo" "dolores" (Except.ok (JVal.obj sampleFields))
          ⟨none, false⟩).state = ⟨some (JVal.obj sampleFields), true⟩
       ∧ brechasIdentificadas (JVal.obj sampleFields) = Except.ok sampleGaps.length
       ∧ modulosSugeridos (JVal.obj sampleFields) = Except.ok samplePlan.length) :=
  ⟨by decide, by decide, rfl, rfl,
   C3_valid_reply_counts "gsk-demo" "dolores" (by decide) (by decide) ⟨none, false⟩
     sampleFields sampleGaps samplePlan rfl rfl⟩

/-- The substring-based filter has the behaviour the spec describes:
exact substring matches, fallback to the size-3 sample when none, never
empty, always from the directory. -/
theorem substringFilter_spec (experts_db : List Expert) (selected : String)
    (sample3 : List Expert) (hlen : sample3.length = 3)
    (hsub : ∀ e ∈ sample3, e ∈ experts_db) :
    (experts_db.filter (fun e => strContains e.specialty selected) ≠ [] →
      ∀ e, e ∈ filterExpertsBySpecialty experts_db selected sample3 ↔
        e ∈ experts_db ∧ strContains e.specialty selected = true)
    ∧ (experts_db.filter (fun e => strContains e.specialty selected) = [] →
      filterExpertsBySpecialty experts_db selected sample3 = sample3)
    ∧ filterExpertsBySpecialty experts_db selected sample3 ≠ []
    ∧ ∀ e ∈ filterExpertsBySpecialty experts_db selected sample3, e ∈ experts_db := by
  have hred : filterExpertsBySpecialty experts_db selected sample3
      = if (experts_db.filter (fun e => strContains e.specialty selected)).isEmpty
        then sample3 else experts_db.filter (fun e => strContains e.specialty selected) := rfl
  by_cases hemp : experts_db.filter (fun e => strContains e.specialty selected) = []
  · have hval : filterExpertsBySpecialty experts_db selected sample3 = sample3 := by
      rw [hred, hemp]
      rfl
    refine ⟨fun hne => absurd hemp hne, fun _ => hval, ?_, ?_⟩
    · rw [hval]
      intro h0
      rw [h0] at hlen
      simp at hlen
    · rw [hval]
      exact hsub
  · have hfalse : (experts_db.filter (fun e => strContains e.specialty selected)).isEmpty
        = false := by
      cases hfe : experts_db.filter (fun e => strContains e.specialty selected) with
      | nil => exact absurd hfe hemp
      | cons a l => rfl
    have hval : filterExpertsBySpecialty experts_db selected sample3
        = experts_db.filter (fun e => strContains e.specialty selected) := by
      rw [hred, hfalse]
      rfl
    refine ⟨fun _ e => ?_, fun h => absurd h hemp, ?_, fun e he => ?_⟩
    · rw [hval]
      simp [List.mem_filter]
    · rw [hval]
      exact hemp
    · rw [hval] at he
      exact (List.mem_filter.mp he).1

/-- Non-metacharacter patterns parse to a sequence of literal pieces. -/
theorem parseLoop_literal (l : List Char) : ∀ acc : List RPiece,
    (∀ c ∈ l, isRegexMeta c = false) →
    parseLoop acc l = .ok (acc.reverse ++ l.map fun c => RPiece.once (RElem.lit c)) := by
  induction l with
  | nil =>
    intro acc _
    simp [parseLoop]
  | cons c rest ih =>
    intro acc hl
    have hc : isRegexMeta c = false := hl c (List.mem_cons_self c rest)
    have hrest : ∀ x ∈ rest, isRegexMeta x = false :=
      fun x hx => hl x (List.mem_cons_of_mem c hx)
    have hq : (c == '*' || c == '+' || c == '?') = false := by
      revert hc
      unfold isRegexMeta
      cases c == '*' <;> cases c == '+' <;> cases c == '?' <;> simp
    have hdot : (c == '.') = false := by
      revert hc
      unfold isRegexMeta
      cases c == '.' <;> simp
    have hstep : parseLoop acc (c :: rest) = parseLoop (.once (.lit c) :: acc) rest := by
      rw [parseLoop.eq_def]
      simp [hq, hdot, hc]
    rw [hstep, ih (.once (.lit c) :: acc) hrest]
    simp

/-- On literal pieces, matching a prefix is `prefCheck`. -/
theorem matchPieces_literal (l : List Char) : ∀ cs : List Char,
    matchPieces (l.map fun c => RPiece.once (RElem.lit c)) cs = prefCheck l cs := by
  induction l with
  | nil =>
    intro cs
    cases cs <;> simp [matchPieces, prefCheck]
  | cons c t ih =>
    intro cs
    cases cs with
    | nil => simp [matchPieces, prefCheck]
    | cons x rest => simp [matchPieces, prefCheck, matchElem, ih]

/-- On literal pieces, `re.search` is substring containment. -/
theorem searchFrom_literal (l : List Char) : ∀ cs : List Char,
    searchFrom (l.map fun c => RPiece.once (RElem.lit c)) cs = subCheck l cs := by
  intro cs
  induction cs with
  | nil => cases l <;> simp [searchFrom, subCheck, matchPieces]
  | cons x rest ih => simp [searchFrom, subCheck, matchPieces_literal, ih]

/-- C4 counterexample: the program interprets the selection as a regex.
At selection "a+" every demo specialty matches (each contains an "a"), so
the program keeps all five rows — yet "a+" is a literal substring of no
specialty, so the claim says the result should be a random sample of
size 3; a five-row result is neither that sample nor the (empty) substring
match set. -/
theorem C4_counterexample :
    filterExpertsBySpecialtyRegex demoExperts "a+" (demoExperts.take 3)
      = Except.ok demoExperts
    ∧ demoExperts.filter (fun e => strContains e.specialty "a+") = []
    ∧ demoExperts.length ≠ 3 := by
  refine ⟨?_, by decide, by decide⟩
  simp [filterExpertsBySpecialtyRegex, parseRegex, parseLoop, demoExperts, lowerChars,
    searchFrom, matchPieces, matchElem, isRegexMeta]

/-- C4 (amended): the selection is matched as a case-insensitive regular
expression, not a literal substring.  For every selection free of regex
metacharacters the two coincide: the filter keeps exactly the experts
whose specialty contains the selection case-insensitively, falls back to
the random sample of size 3 when no one matches, and so never returns an
empty list and only returns directory rows.  (Metacharacter selections
diverge, or make pattern compilation fail.) -/
theorem C4_literal_pattern_filtering (experts_db : List Expert) (selected : String)
    (sample3 : List Expert) (hlen : sample3.length = 3)
    (hsub : ∀ e ∈ sample3, e ∈ experts_db)
    (hlit : ∀ c ∈ lowerChars selected, isRegexMeta c = false) :
    filterExpertsBySpecialtyRegex experts_db selected sample3
      = Except.ok (filterExpertsBySpecialty experts_db selected sample3)
    ∧ (experts_db.filter (fun e => strContains e.specialty selected) ≠ [] →
        ∀ e, e ∈ filterExpertsBySpecialty experts_db selected sample3 ↔
          e ∈ experts_db ∧ strContains e.specialty selected = true)
    ∧ (experts_db.filter (fun e => strContains e.specialty selected) = [] →
        filterExpertsBySpecialty experts_db selected sample3 = sample3)
    ∧ filterExpertsBySpecialty experts_db selected sample3 ≠ []
    ∧ (∀ e ∈ filterExpertsBySpecialty experts_db selected sample3, e ∈ experts_db) := by
  have hp : parseRegex (lowerChars selected)
      = .ok ((lowerChars selected).map fun c => RPiece.once (RElem.lit c)) := by
    unfold parseRegex
    simpa using parseLoop_literal (lowerChars selected) [] hlit
  have hf : (experts_db.filter fun e =>
        searchFrom ((lowerChars selected).map fun c => RPiece.once (RElem.lit c))
          (lowerChars e.specialty))
      = experts_db.filter fun e => strContains e.specialty selected := by
    apply List.filter_congr
    intro e _
    rw [searchFrom_literal]
    rfl
  refine ⟨?_, substringFilter_spec experts_db selected sample3 hlen hsub⟩
  simp only [filterExpertsBySpecialtyRegex, filterExpertsBySpecialty, hp, hf]

/-- Witness for C4 at the metacharacter-free selection "lid", which
matches "Liderazgo" case-insensitively on the demo table. -/
theorem C4_literal_witness :
    (demoExperts.take 3).length = 3
    ∧ (∀ e ∈ demoExperts.take 3, e ∈ demoExperts)
    ∧ (∀ c ∈ lowerChars "lid", isRegexMeta c = false)
    ∧ (filterExpertsBySpecialtyRegex demoExperts "lid" (demoExperts.take 3)
        = Except.ok (filterExpertsBySpecialty demoExperts "lid" (demoExperts.take 3))
       ∧ (demoExperts.filter (fun e => strContains e.specialty "lid") ≠ [] →
           ∀ e, e ∈ filterExpertsBySpecialty demoExperts "lid" (demoExperts.take 3) ↔
             e ∈ demoExperts ∧ strContains e.specialty "lid" = true)
       ∧ (demoExperts.filter (fun e => strContains e.specialty "lid") = [] →
           filterExpertsBySpecialty demoExperts "lid" (demoExperts.take 3)
             = demoExperts.take 3)
       ∧ filterExpertsBySpecialty demoExperts "lid" (demoExperts.take 3) ≠ []
       ∧ (∀ e ∈ filterExpertsBySpecialty demoExperts "lid" (demoExperts.take 3),
           e ∈ demoExperts)) :=
  ⟨by decide, by decide, by decide,
   C4_literal_pattern_filtering demoExperts "lid" (demoExperts.take 3)
     (by decide) (by decide) (by decide)⟩

/-- C5: for the "Todos" selection, the filter keeps exactly the experts
whose specialty is a member of the AI-recommended list (exact membership);
when that set is empty it returns the random sample of size 5, so the
rendered list is non-empty and always comes from the directory. -/
theorem C5_todos_filtering (experts_db : List Expert) (rec_specialties : List String)
    (sample5 : List Expert) (hlen : sample5.length = 5)
    (hsub : ∀ e ∈ sample5, e ∈ experts_db) :
    (experts_db.filter (fun e => rec_specialties.contains e.specialty) ≠ [] →
      ∀ e, e ∈ filterExpertsTodos experts_db rec_specialties sample5 ↔
        e ∈ experts_db ∧ e.specialty ∈ rec_specialties)
    ∧ (experts_db.filter (fun e => rec_specialties.contains e.specialty) = [] →
      filterExpertsTodos experts_db rec_specialties sample5 = sample5)
    ∧ filterExpertsTodos experts_db rec_specialties sample5 ≠ []
    ∧ ∀ e ∈ filterExpertsTodos experts_db rec_specialties sample5, e ∈ experts_db := by
  have hred : filterExpertsTodos experts_db rec_specialties sample5
      = if (experts_db.filter (fun e => rec_specialties.contains e.specialty)).isEmpty
        then sample5 else experts_db.filter (fun e => rec_specialties.contains e.specialty) :=
    rfl
  by_cases hemp : experts_db.filter (fun e => rec_specialties.contains e.specialty) = []
  · have hval : filterExpertsTodos experts_db rec_specialties sample5 = sample5 := by
      rw [hred, hemp]
      rfl
    refine ⟨fun hne => absurd hemp hne, fun _ => hval, ?_, ?_⟩
    · rw [hval]
      intro h0
      rw [h0] at hlen
      simp at hlen
    · rw [hval]
      exact hsub
  · have hfalse : (experts_db.filter (fun e => rec_specialties.contains e.specialty)).isEmpty
        = false := by
      cases hfe : experts_db.filter (fun e => rec_specialties.contains e.specialty) with
      | nil => exact absurd hfe hemp
      | cons a l => rfl
    have hval : filterExpertsTodos experts_db rec_specialties sample5
        = experts_db.filter (fun e => rec_specialties.contains e.specialty) := by
      rw [hred, hfalse]
      rfl
    refine ⟨fun _ e => ?_, fun h => absurd h hemp, ?_, fun e he => ?_⟩
    · rw [hval]
      simp [List.mem_filter]
    · rw [hval]
      exact hemp
    · rw [hval] at he
      exact (List.mem_filter.mp he).1

/-- Witness for C5: the recommended list names a specialty absent from the
demo table, so the fallback sample (the whole 5-row table) is returned. -/
theorem C5_witness :
    demoExperts.length = 5
    ∧ (∀ e ∈ demoExperts, e ∈ demoExperts)
    ∧ ((demoExperts.filter (fun e => ["Soft Skills"].contains e.specialty) ≠ [] →
         ∀ e, e ∈ filterExpertsTodos demoExperts ["Soft Skills"] demoExperts ↔
           e ∈ demoExperts ∧ e.specialty ∈ ["Soft Skills"])
       ∧ (demoExperts.filter (fun e => ["Soft Skills"].contains e.specialty) = [] →
         filterExpertsTodos demoExperts ["Soft Skills"] demoExperts = demoExperts)
       ∧ filterExpertsTodos demoExperts ["Soft Skills"] demoExperts ≠ []
       ∧ ∀ e ∈ filterExpertsTodos demoExperts ["Soft Skills"] demoExperts,
           e ∈ demoExperts) :=
  ⟨by decide, by decide,
   C5_todos_filtering demoExperts ["Soft Skills"] demoExperts (by decide) (by decide)⟩

/-- C10: whatever values the pseudo-random streams take inside their
documented ranges, `generate_mock_database` produces exactly 15 records,
each with a specialty from the fixed six-element set, a rating in
`[3.5, 5]` that is an integer number of tenths, and an hourly rate in
`[50, 200]`. -/
theorem C10_mock_database (nameAt emailAt : Nat → String) (specIdx : Nat → Nat)
    (ratingAt : Nat → ℚ) (rateAt : Nat → ℤ)
    (hspec : ∀ i, specIdx i < 6)
    (hrat : ∀ i, (7 : ℚ) / 2 ≤ ratingAt i ∧ ratingAt i ≤ 5)
    (hrate : ∀ i, 50 ≤ rateAt i ∧ rateAt i ≤ 200) :
    (generate_mock_database nameAt emailAt specIdx ratingAt rateAt).length = 15
    ∧ ∀ e ∈ generate_mock_database nameAt emailAt specIdx ratingAt rateAt,
        e.specialty ∈ specialties
        ∧ ((7 : ℚ) / 2 ≤ e.rating ∧ e.rating ≤ 5)
        ∧ (∃ k : ℤ, e.rating = (k : ℚ) / 10)
        ∧ (50 ≤ e.hourly_rate ∧ e.hourly_rate ≤ 200) := by
  constructor
  · simp [generate_mock_database]
  · intro e he
    simp only [generate_mock_database, List.mem_map, List.mem_range] at he
    obtain ⟨i, _, rfl⟩ := he
    refine ⟨?_, ?_, ⟨round (ratingAt i * 10), rfl⟩, hrate i⟩
    · have h6 := hspec i
      simp only
      set j := specIdx i with hj
      interval_cases j <;> simp [specialties]
    · exact roundTo1_rating_bounds (ratingAt i) (hrat i).1 (hrat i).2

/-- Witness for C10 with constant random streams. -/
theorem C10_witness :
    (∀ i : Nat, (fun _ : Nat => 2) i < 6)
    ∧ (∀ i : Nat, (7 : ℚ) / 2 ≤ (fun _ : Nat => (4 : ℚ)) i ∧ (fun _ : Nat => (4 : ℚ)) i ≤ 5)
    ∧ (∀ i : Nat, 50 ≤ (fun _ : Nat => (100 : ℤ)) i ∧ (fun _ : Nat => (100 : ℤ)) i ≤ 200)
    ∧ ((generate_mock_database (fun _ => "Nombre") (fun _ => "correo@example.com")
          (fun _ => 2) (fun _ => (4 : ℚ)) (fun _ => (100 : ℤ))).length = 15
       ∧ ∀ e ∈ generate_mock_database (fun _ => "Nombre") (fun _ => "correo@example.com")
            (fun _ => 2) (fun _ => (4 : ℚ)) (fun _ => (100 : ℤ)),
          e.specialty ∈ specialties
          ∧ ((7 : ℚ) / 2 ≤ e.rating ∧ e.rating ≤ 5)
          ∧ (∃ k : ℤ, e.rating = (k : ℚ) / 10)
          ∧ (50 ≤ e.hourly_rate ∧ e.hourly_rate ≤ 200)) :=
  ⟨fun _ => by norm_num, fun _ => by norm_num, fun _ => by norm_num,
   C10_mock_database (fun _ => "Nombre") (fun _ => "correo@example.com")
     (fun _ => 2) (fun _ => (4 : ℚ)) (fun _ => (100 : ℤ))
     (fun _ => by norm_num) (fun _ => by norm_num) (fun _ => by norm_num)⟩
